import Mathlib

/-!
Shallow embedding of `src/endpoints.py` (pipeflow endpoints): the memory-queue
endpoints, the Redis broker endpoints with their retry/reconnect loop, and the
constructor validation logic, together with a model of the external Redis list
primitives the endpoints call.
-/

namespace Pipeflow

/-- Modelled from the spec: the `Task` payload carrier from the `tasks` module
(not under `src/`) — "attribute `data: bytes`, immutable after construction, no
logic beyond holding/returning raw bytes"; `get_data` returns the payload. -/
structure Task (α : Type) where
  data : α
deriving DecidableEq, Repr

/-- Python `task.get_data()`: returns the stored payload. -/
def Task.get_data {α : Type} (t : Task α) : α := t.data

/-- Python exception values raised by the constructors in `endpoints.py`:
`ValueError` (the spec's `InvalidArgument`) and `AssertionError` (from the
`assert isinstance(queue, asyncio.Queue)` statements). -/
inductive PyError where
  | valueError (msg : String)
  | assertionError (msg : String)
deriving DecidableEq, Repr

/-- Possible Python values passed as the `queue` argument of the memory-queue
endpoint constructors: `None`, an `asyncio.Queue` (modelled by its FIFO content
list), or some other object. -/
inductive PyQueueArg (α : Type) where
  | none
  | asyncioQueue (q : List α)
  | other (tag : String)
deriving DecidableEq, Repr

/-- `QueueInputEndpoint.__init__`: `None` raises `ValueError("queue must be not
None")`, then `assert isinstance(queue, asyncio.Queue)` rejects any non-queue
object with an `AssertionError`; a queue is stored as `self._queue`. -/
def QueueInputEndpoint.init {α : Type} : PyQueueArg α → Except PyError (List α)
  | PyQueueArg.none => Except.error (PyError.valueError "queue must be not None")
  | PyQueueArg.asyncioQueue q => Except.ok q
  | PyQueueArg.other _ =>
      Except.error (PyError.assertionError "queue must be an isinstance of asyncio.Queue")

/-- `QueueOutputEndpoint.__init__`: same validation as the input endpoint. -/
def QueueOutputEndpoint.init {α : Type} : PyQueueArg α → Except PyError (List α)
  | PyQueueArg.none => Except.error (PyError.valueError "queue must be not None")
  | PyQueueArg.asyncioQueue q => Except.ok q
  | PyQueueArg.other _ =>
      Except.error (PyError.assertionError "queue must be an isinstance of asyncio.Queue")

/-- Semantics of `asyncio.Queue.put` (external library, unbounded FIFO):
append the item at the tail. -/
def asyncioQueuePut {α : Type} (q : List α) (x : α) : List α := q ++ [x]

/-- Semantics of `asyncio.Queue.get` (external library, FIFO): take the item at
the head; `Option.none` models the caller staying suspended on an empty queue. -/
def asyncioQueueGet {α : Type} : List α → Option (α × List α)
  | [] => Option.none
  | x :: rest => Option.some (x, rest)

/-- `QueueInputEndpoint.get`: `msg = await self._queue.get(); return Task(msg)`. -/
def QueueInputEndpoint.get {α : Type} (q : List α) : Option (Task α × List α) :=
  (asyncioQueueGet q).map fun p => (Task.mk p.1, p.2)

/-- `QueueOutputEndpoint.put`: `msg = task.get_data(); await self._queue.put(msg);
return True`. -/
def QueueOutputEndpoint.put {α : Type} (q : List α) (task : Task α) : List α × Bool :=
  (asyncioQueuePut q task.get_data, true)

/-- Outcome of one `self._client.brpop(queue_name, time_out)` call inside
`RedisInputEndpoint._get`: a `(key, payload)` pair, `None` on idle timeout, a
raised `redis.ConnectionError`, a raised `redis.TimeoutError`, or any other
raised exception (identified by a code). -/
inductive PopOutcome (α : Type) where
  | value (payload : α)
  | nilTimeout
  | connError
  | timeoutError
  | otherExn (code : Nat)
deriving DecidableEq, Repr

/-- Outcome of one `lpush`/`rpush` call inside `RedisOutputEndpoint._put`. -/
inductive PushOutcome where
  | ok
  | connError
  | timeoutError
  | otherExn (code : Nat)
deriving DecidableEq, Repr

/-- Observable side effects of the broker endpoints: a blocking-pop call, a
head/tail push call carrying its payload, a connection-pool `disconnect`
(reset), and a `logger.error` line. -/
inductive REvent (α : Type) where
  | brpopCall
  | lpushCall (msg : α)
  | rpushCall (msg : α)
  | disconnect
  | logged (msg : String)
deriving DecidableEq, Repr

/-- How a broker retry loop ends, given a finite script of backend outcomes:
it returned a value, an uncaught exception propagated, or the script ran out
with the loop still running. -/
inductive Outcome (α : Type) where
  | returned (v : α)
  | raised (code : Nat)
  | looping
deriving DecidableEq, Repr

/-- Map a function over a returned value. -/
def Outcome.mapv {α β : Type} (f : α → β) : Outcome α → Outcome β
  | Outcome.returned v => Outcome.returned (f v)
  | Outcome.raised c => Outcome.raised c
  | Outcome.looping => Outcome.looping

/-- `RedisInputEndpoint._get`, driven by a script of successive `brpop`
outcomes: `while True:` pop; on `None` continue; on `ConnectionError` /
`TimeoutError` log the fault, `connection_pool.disconnect()`, continue; on any
other exception propagate; otherwise return the raw payload. The result pairs
the event trace with the loop's outcome. -/
def RedisInputEndpoint.popLoop {α : Type} :
    List (PopOutcome α) → List (REvent α) × Outcome α
  | [] => ([], Outcome.looping)
  | PopOutcome.value p :: _ => ([REvent.brpopCall], Outcome.returned p)
  | PopOutcome.nilTimeout :: rest =>
      let r := RedisInputEndpoint.popLoop rest
      (REvent.brpopCall :: r.1, r.2)
  | PopOutcome.connError :: rest =>
      let r := RedisInputEndpoint.popLoop rest
      (REvent.brpopCall :: REvent.logged "Redis ConnectionError" :: REvent.disconnect :: r.1,
        r.2)
  | PopOutcome.timeoutError :: rest =>
      let r := RedisInputEndpoint.popLoop rest
      (REvent.brpopCall :: REvent.logged "Redis TimeoutError" :: REvent.disconnect :: r.1,
        r.2)
  | PopOutcome.otherExn c :: _ => ([REvent.brpopCall], Outcome.raised c)

/-- Fixed blocking-pop timeout passed by `RedisInputEndpoint.get`. -/
def RedisInputEndpoint.popTimeout : Nat := 20

/-- `RedisInputEndpoint.get`: `msg = self._get(self._queue_name, 20);
task = tasks.Task(msg); return task`. -/
def RedisInputEndpoint.get {α : Type} (script : List (PopOutcome α)) :
    List (REvent α) × Outcome (Task α) :=
  let r := RedisInputEndpoint.popLoop script
  (r.1, r.2.mapv Task.mk)

/-- The push call `RedisOutputEndpoint._put` issues each attempt:
`if self._direction == "left": self._client.lpush(...) else:
self._client.rpush(...)`. -/
def pushEventFor {α : Type} (direction : String) (msg : α) : REvent α :=
  if direction = "left" then REvent.lpushCall msg else REvent.rpushCall msg

/-- `RedisOutputEndpoint._put`, driven by a script of successive push outcomes:
`while True:` push (left or right per the stored direction); on
`ConnectionError` / `TimeoutError` log, `connection_pool.disconnect()`,
continue; on any other exception propagate; otherwise return `True`. -/
def RedisOutputEndpoint.pushLoop {α : Type} (direction : String) (msg : α) :
    List PushOutcome → List (REvent α) × Outcome Bool
  | [] => ([], Outcome.looping)
  | PushOutcome.ok :: _ => ([pushEventFor direction msg], Outcome.returned true)
  | PushOutcome.connError :: rest =>
      let r := RedisOutputEndpoint.pushLoop direction msg rest
      (pushEventFor direction msg :: REvent.logged "Redis ConnectionError" ::
        REvent.disconnect :: r.1, r.2)
  | PushOutcome.timeoutError :: rest =>
      let r := RedisOutputEndpoint.pushLoop direction msg rest
      (pushEventFor direction msg :: REvent.logged "Redis TimeoutError" ::
        REvent.disconnect :: r.1, r.2)
  | PushOutcome.otherExn c :: _ => ([pushEventFor direction msg], Outcome.raised c)

/-- State stored by `RedisOutputEndpoint.__init__` on success. -/
structure RedisOutputState where
  queue_name : String
  direction : String
deriving DecidableEq, Repr

/-- `RedisOutputEndpoint.put`: `msg = task.get_data(); self._put(self._queue_name,
msg); return True`. -/
def RedisOutputEndpoint.put {α : Type} (st : RedisOutputState) (task : Task α)
    (script : List PushOutcome) : List (REvent α) × Outcome Bool :=
  let r := RedisOutputEndpoint.pushLoop st.direction task.get_data script
  (r.1, r.2.mapv fun _ => true)

/-- Modelled from the spec: `RedisMQClient.__init__` (the `clients` module, not
under `src/`) is the connection layer set up by `super().__init__(**conf)` —
"construction-time configuration forwarded opaquely to the connection layer";
we record it as the single backend-access event of construction. -/
inductive CtorEvent where
  | backendInit
deriving DecidableEq, Repr

/-- `RedisInputEndpoint.__init__`: a `None` queue name raises
`ValueError("queue_name must be not None")` before `super().__init__` runs;
otherwise the name is stored and the connection layer is initialised. -/
def RedisInputEndpoint.init (queue_name : Option String) :
    Except PyError String × List CtorEvent :=
  match queue_name with
  | Option.none => (Except.error (PyError.valueError "queue_name must be not None"), [])
  | Option.some q => (Except.ok q, [CtorEvent.backendInit])

/-- `RedisOutputEndpoint.__init__`: a `None` queue name raises `ValueError`,
then a direction outside `["left", "right"]` raises
`ValueError("invalid direction")`; only after both checks pass are the fields
stored and the connection layer initialised. -/
def RedisOutputEndpoint.init (queue_name : Option String) (direction : String) :
    Except PyError RedisOutputState × List CtorEvent :=
  match queue_name with
  | Option.none => (Except.error (PyError.valueError "queue_name must be not None"), [])
  | Option.some q =>
      if direction = "left" ∨ direction = "right" then
        (Except.ok ⟨q, direction⟩, [CtorEvent.backendInit])
      else
        (Except.error (PyError.valueError "invalid direction"), [])

/-- Default value of the `direction` parameter in `RedisOutputEndpoint.__init__`. -/
def RedisOutputEndpoint.defaultDirection : String := "left"

/-- Construction with the `direction` argument omitted, as in
`RedisOutputEndpoint(queue_name)`. -/
def RedisOutputEndpoint.initDefault (queue_name : Option String) :
    Except PyError RedisOutputState × List CtorEvent :=
  RedisOutputEndpoint.init queue_name RedisOutputEndpoint.defaultDirection

/-- Semantics of the Redis `LPUSH` list primitive (external backend, spec §6
`PUSH-LEFT`): insert at the head of the list. -/
def redisLpush {α : Type} (l : List α) (msg : α) : List α := msg :: l

/-- Semantics of the Redis `RPUSH` list primitive (external backend, spec §6
`PUSH-RIGHT`): insert at the tail of the list. -/
def redisRpush {α : Type} (l : List α) (msg : α) : List α := l ++ [msg]

/-- Semantics of the Redis `BRPOP` list primitive (external backend, spec §6
`BLOCKING-POP`): remove and return the tail element; `Option.none` models the
idle timeout on an empty list. -/
def redisBrpop {α : Type} (l : List α) : Option (α × List α) :=
  match l.getLast? with
  | Option.none => Option.none
  | Option.some x => Option.some (x, l.dropLast)

/-- Effect on the broker list of one successful push by
`RedisOutputEndpoint._put`, selected by the stored direction. -/
def redisPushDir {α : Type} (direction : String) (l : List α) (msg : α) : List α :=
  if direction = "left" then redisLpush l msg else redisRpush l msg

/-- Broker list after a sequence of successful `RedisOutputEndpoint.put` calls
(each pushes `task.get_data()` in the configured direction). -/
def redisPutAll {α : Type} (direction : String) (tasks : List (Task α)) : List α :=
  tasks.foldl (fun l t => redisPushDir direction l t.get_data) []

/-- Effect of one successful `RedisInputEndpoint.get` on the broker list: `BRPOP`
the tail element and wrap it as a `Task`. -/
def redisStateGet {α : Type} (l : List α) : Option (Task α × List α) :=
  (redisBrpop l).map fun p => (Task.mk p.1, p.2)

/-- Payloads obtained by repeated successful `RedisInputEndpoint.get` calls,
bounded by a fuel so the definition is executable; gets stop when the list is
empty. -/
def redisGetAllFuel {α : Type} : Nat → List α → List α
  | 0, _ => []
  | n + 1, l =>
      match redisStateGet l with
      | Option.none => []
      | Option.some (t, rest) => t.get_data :: redisGetAllFuel n rest

/-- Memory queue after a sequence of `QueueOutputEndpoint.put` calls. -/
def memPutAll {α : Type} (tasks : List (Task α)) : List α :=
  tasks.foldl (fun q t => (QueueOutputEndpoint.put q t).1) []

/-- Payloads obtained by repeated `QueueInputEndpoint.get` calls, bounded by a
fuel; gets stop when the queue is empty. -/
def memGetAllFuel {α : Type} : Nat → List α → List α
  | 0, _ => []
  | n + 1, q =>
      match QueueInputEndpoint.get q with
      | Option.none => []
      | Option.some (t, rest) => t.get_data :: memGetAllFuel n rest

/-- True on the `brpop` outcomes whose exceptions `_get` catches or that are not
exceptions at all (a payload, an idle `None`, `ConnectionError`,
`TimeoutError`); false only on an uncaught exception. -/
def PopOutcome.isHandled {α : Type} : PopOutcome α → Bool
  | PopOutcome.otherExn _ => false
  | _ => true

/-- True on the push outcomes whose exceptions `_put` catches or that succeed;
false only on an uncaught exception. -/
def PushOutcome.isHandled : PushOutcome → Bool
  | PushOutcome.otherExn _ => false
  | _ => true

/-- True on the `brpop` outcomes of normal idle operation: a payload or an idle
`None`, no fault at all. -/
def PopOutcome.isBenign {α : Type} : PopOutcome α → Bool
  | PopOutcome.value _ => true
  | PopOutcome.nilTimeout => true
  | _ => false

/-- True on the push outcomes that `_put` treats as transient faults. -/
def PushOutcome.isTransient : PushOutcome → Bool
  | PushOutcome.connError => true
  | PushOutcome.timeoutError => true
  | _ => false

/-- Recognises a connection-reset event. -/
def REvent.isDisconnect {α : Type} : REvent α → Bool
  | REvent.disconnect => true
  | _ => false

/-- Recognises a blocking-pop call event. -/
def REvent.isBrpop {α : Type} : REvent α → Bool
  | REvent.brpopCall => true
  | _ => false

/-- Recognises a head-insert push event. -/
def REvent.isLpush {α : Type} : REvent α → Bool
  | REvent.lpushCall _ => true
  | _ => false

/-- Recognises a tail-insert push event. -/
def REvent.isRpush {α : Type} : REvent α → Bool
  | REvent.rpushCall _ => true
  | _ => false

/-- Recognises a fault-log event. -/
def REvent.isLogged {α : Type} : REvent α → Bool
  | REvent.logged _ => true
  | _ => false

@[simp] lemma isDisconnect_brpopCall {α : Type} :
    (REvent.brpopCall : REvent α).isDisconnect = false := rfl

@[simp] lemma isDisconnect_lpushCall {α : Type} (m : α) :
    (REvent.lpushCall m).isDisconnect = false := rfl

@[simp] lemma isDisconnect_rpushCall {α : Type} (m : α) :
    (REvent.rpushCall m).isDisconnect = false := rfl

@[simp] lemma isDisconnect_disconnect {α : Type} :
    (REvent.disconnect : REvent α).isDisconnect = true := rfl

@[simp] lemma isDisconnect_logged {α : Type} (s : String) :
    (REvent.logged s : REvent α).isDisconnect = false := rfl

@[simp] lemma isBrpop_brpopCall {α : Type} :
    (REvent.brpopCall : REvent α).isBrpop = true := rfl

@[simp] lemma isBrpop_lpushCall {α : Type} (m : α) :
    (REvent.lpushCall m).isBrpop = false := rfl

@[simp] lemma isBrpop_rpushCall {α : Type} (m : α) :
    (REvent.rpushCall m).isBrpop = false := rfl

@[simp] lemma isBrpop_disconnect {α : Type} :
    (REvent.disconnect : REvent α).isBrpop = false := rfl

@[simp] lemma isBrpop_logged {α : Type} (s : String) :
    (REvent.logged s : REvent α).isBrpop = false := rfl

@[simp] lemma isLogged_brpopCall {α : Type} :
    (REvent.brpopCall : REvent α).isLogged = false := rfl

@[simp] lemma isLogged_lpushCall {α : Type} (m : α) :
    (REvent.lpushCall m).isLogged = false := rfl

@[simp] lemma isLogged_rpushCall {α : Type} (m : α) :
    (REvent.rpushCall m).isLogged = false := rfl

@[simp] lemma isLogged_disconnect {α : Type} :
    (REvent.disconnect : REvent α).isLogged = false := rfl

@[simp] lemma isLogged_logged {α : Type} (s : String) :
    (REvent.logged s : REvent α).isLogged = true := rfl

@[simp] lemma isLpush_brpopCall {α : Type} :
    (REvent.brpopCall : REvent α).isLpush = false := rfl

@[simp] lemma isLpush_lpushCall {α : Type} (m : α) :
    (REvent.lpushCall m).isLpush = true := rfl

@[simp] lemma isLpush_rpushCall {α : Type} (m : α) :
    (REvent.rpushCall m).isLpush = false := rfl

@[simp] lemma isLpush_disconnect {α : Type} :
    (REvent.disconnect : REvent α).isLpush = false := rfl

@[simp] lemma isLpush_logged {α : Type} (s : String) :
    (REvent.logged s : REvent α).isLpush = false := rfl

@[simp] lemma isRpush_brpopCall {α : Type} :
    (REvent.brpopCall : REvent α).isRpush = false := rfl

@[simp] lemma isRpush_lpushCall {α : Type} (m : α) :
    (REvent.lpushCall m).isRpush = false := rfl

@[simp] lemma isRpush_rpushCall {α : Type} (m : α) :
    (REvent.rpushCall m).isRpush = true := rfl

@[simp] lemma isRpush_disconnect {α : Type} :
    (REvent.disconnect : REvent α).isRpush = false := rfl

@[simp] lemma isRpush_logged {α : Type} (s : String) :
    (REvent.logged s : REvent α).isRpush = false := rfl

lemma popLoop_faults_then_value {α : Type} (n : Nat) (p : α) :
    (RedisInputEndpoint.popLoop
        (List.replicate n PopOutcome.connError ++ [PopOutcome.value p])).2
      = Outcome.returned p ∧
    (RedisInputEndpoint.popLoop
        (List.replicate n PopOutcome.connError ++ [PopOutcome.value p])).1.countP
        (fun e => REvent.isDisconnect e) = n ∧
    (RedisInputEndpoint.popLoop
        (List.replicate n PopOutcome.connError ++ [PopOutcome.value p])).1.countP
        (fun e => REvent.isBrpop e) = n + 1 := by
  induction n with
  | zero =>
      simp [RedisInputEndpoint.popLoop, List.countP_cons]
  | succ n ih =>
      obtain ⟨h2, hd, hb⟩ := ih
      refine ⟨?_, ?_, ?_⟩ <;>
        simp [List.replicate_succ, RedisInputEndpoint.popLoop, List.countP_cons,
          h2, hd, hb]

/-- C1: with `N` consecutive `ConnectionError` pops followed by one successful
pop of payload `p`, `RedisInputEndpoint.get` issues exactly `N`
connection-pool disconnects, makes `N + 1` pop attempts, returns the `Task`
wrapping `p`, and raises nothing. -/
theorem redis_input_get_absorbs_connection_faults {α : Type} (n : Nat) (p : α) :
    (RedisInputEndpoint.get
        (List.replicate n PopOutcome.connError ++ [PopOutcome.value p])).2
      = Outcome.returned (Task.mk p) ∧
    (RedisInputEndpoint.get
        (List.replicate n PopOutcome.connError ++ [PopOutcome.value p])).1.countP
        (fun e => REvent.isDisconnect e) = n ∧
    (RedisInputEndpoint.get
        (List.replicate n PopOutcome.connError ++ [PopOutcome.value p])).1.countP
        (fun e => REvent.isBrpop e) = n + 1 ∧
    ∀ c, (RedisInputEndpoint.get
        (List.replicate n PopOutcome.connError ++ [PopOutcome.value p])).2
      ≠ Outcome.raised c := by
  obtain ⟨h2, hd, hb⟩ := popLoop_faults_then_value n p
  refine ⟨?_, ?_, ?_, ?_⟩
  · simp [RedisInputEndpoint.get, h2, Outcome.mapv]
  · simpa [RedisInputEndpoint.get] using hd
  · simpa [RedisInputEndpoint.get] using hb
  · intro c
    simp [RedisInputEndpoint.get, h2, Outcome.mapv]

lemma popLoop_benign_no_fault_events {α : Type} (script : List (PopOutcome α))
    (h : script.all (fun o => PopOutcome.isBenign o) = true) :
    (RedisInputEndpoint.popLoop script).1.countP (fun e => REvent.isDisconnect e) = 0 ∧
    (RedisInputEndpoint.popLoop script).1.countP (fun e => REvent.isLogged e) = 0 := by
  induction script with
  | nil =>
      simp [RedisInputEndpoint.popLoop]
  | cons o rest ih =>
      simp only [List.all_cons, Bool.and_eq_true] at h
      obtain ⟨ho, hrest⟩ := h
      obtain ⟨ihd, ihl⟩ := ih hrest
      cases o with
      | value p =>
          simp [RedisInputEndpoint.popLoop, List.countP_cons]
      | nilTimeout =>
          simp [RedisInputEndpoint.popLoop, List.countP_cons, ihd, ihl]
      | connError => simp [PopOutcome.isBenign] at ho
      | timeoutError => simp [PopOutcome.isBenign] at ho
      | otherExn c => simp [PopOutcome.isBenign] at ho

/-- C2: an idle timeout (`brpop` returning `None`) causes no disconnect and no
fault log — a script of only payloads and idle timeouts produces zero
disconnect events and zero log events — and on `None` the loop simply pops
again: the trace gains one `brpop` call and the outcome is that of the rest of
the script. -/
theorem redis_input_idle_timeout_no_reset {α : Type} (script : List (PopOutcome α))
    (h : script.all (fun o => PopOutcome.isBenign o) = true) :
    (RedisInputEndpoint.popLoop script).1.countP (fun e => REvent.isDisconnect e) = 0 ∧
    (RedisInputEndpoint.popLoop script).1.countP (fun e => REvent.isLogged e) = 0 ∧
    ∀ rest : List (PopOutcome α),
      RedisInputEndpoint.popLoop (PopOutcome.nilTimeout :: rest)
        = (REvent.brpopCall :: (RedisInputEndpoint.popLoop rest).1,
            (RedisInputEndpoint.popLoop rest).2) := by
  obtain ⟨hd, hl⟩ := popLoop_benign_no_fault_events script h
  exact ⟨hd, hl, fun rest => rfl⟩

/-- C2 witness: the idle-then-payload script `[None, None, payload 5]`. -/
theorem redis_input_idle_timeout_no_reset_witness :
    (RedisInputEndpoint.popLoop
        [PopOutcome.nilTimeout, PopOutcome.nilTimeout, PopOutcome.value 5]).1.countP
        (fun e => REvent.isDisconnect e) = 0 ∧
    (RedisInputEndpoint.popLoop
        [PopOutcome.nilTimeout, PopOutcome.nilTimeout, PopOutcome.value 5]).1.countP
        (fun e => REvent.isLogged e) = 0 ∧
    ∀ rest : List (PopOutcome Nat),
      RedisInputEndpoint.popLoop (PopOutcome.nilTimeout :: rest)
        = (REvent.brpopCall :: (RedisInputEndpoint.popLoop rest).1,
            (RedisInputEndpoint.popLoop rest).2) :=
  redis_input_idle_timeout_no_reset
    [PopOutcome.nilTimeout, PopOutcome.nilTimeout, PopOutcome.value 5] (by decide)

@[simp] lemma isDisconnect_pushEventFor {α : Type} (d : String) (m : α) :
    (pushEventFor d m).isDisconnect = false := by
  unfold pushEventFor
  split <;> rfl

@[simp] lemma isLogged_pushEventFor {α : Type} (d : String) (m : α) :
    (pushEventFor d m).isLogged = false := by
  unfold pushEventFor
  split <;> rfl

@[simp] lemma isBrpop_pushEventFor {α : Type} (d : String) (m : α) :
    (pushEventFor d m).isBrpop = false := by
  unfold pushEventFor
  split <;> rfl

lemma pushLoop_transient_then_ok {α : Type} (d : String) (msg : α)
    (pre : List PushOutcome) (h : pre.all (fun o => PushOutcome.isTransient o) = true) :
    (RedisOutputEndpoint.pushLoop d msg (pre ++ [PushOutcome.ok])).2
      = Outcome.returned true ∧
    (RedisOutputEndpoint.pushLoop d msg (pre ++ [PushOutcome.ok])).1.countP
      (fun e => REvent.isDisconnect e) = pre.length ∧
    (RedisOutputEndpoint.pushLoop d msg (pre ++ [PushOutcome.ok])).1.countP
      (fun e => REvent.isLogged e) = pre.length := by
  induction pre with
  | nil =>
      refine ⟨rfl, ?_, ?_⟩ <;>
        simp [RedisOutputEndpoint.pushLoop, List.countP_cons]
  | cons o rest ih =>
      simp only [List.all_cons, Bool.and_eq_true] at h
      obtain ⟨ho, hrest⟩ := h
      obtain ⟨h2, hdc, hlg⟩ := ih hrest
      cases o with
      | ok => simp [PushOutcome.isTransient] at ho
      | otherExn c => simp [PushOutcome.isTransient] at ho
      | connError =>
          refine ⟨?_, ?_, ?_⟩ <;>
            simp [RedisOutputEndpoint.pushLoop, List.countP_cons, h2, hdc, hlg]
      | timeoutError =>
          refine ⟨?_, ?_, ?_⟩ <;>
            simp [RedisOutputEndpoint.pushLoop, List.countP_cons, h2, hdc, hlg]

lemma pushLoop_returned_true {α : Type} (d : String) (msg : α)
    (script : List PushOutcome) (b : Bool)
    (h : (RedisOutputEndpoint.pushLoop d msg script).2 = Outcome.returned b) :
    b = true := by
  induction script with
  | nil => simp [RedisOutputEndpoint.pushLoop] at h
  | cons o rest ih =>
      cases o with
      | ok => simpa [RedisOutputEndpoint.pushLoop, eq_comm] using h
      | connError => exact ih (by simpa [RedisOutputEndpoint.pushLoop] using h)
      | timeoutError => exact ih (by simpa [RedisOutputEndpoint.pushLoop] using h)
      | otherExn c => simp [RedisOutputEndpoint.pushLoop] at h

/-- C3: `put` returns `true` immediately on a successful push; with any run of
transient faults before the success it logs and disconnects once per fault and
still ends returning `true`, raising nothing; and no call of `put` ever
returns a value other than `true`. -/
theorem redis_output_put_never_fails {α : Type} (st : RedisOutputState)
    (task : Task α) (pre : List PushOutcome)
    (h : pre.all (fun o => PushOutcome.isTransient o) = true) :
    (∀ rest, RedisOutputEndpoint.put st task (PushOutcome.ok :: rest)
        = ([pushEventFor st.direction task.get_data], Outcome.returned true)) ∧
    (RedisOutputEndpoint.put st task (pre ++ [PushOutcome.ok])).2
      = Outcome.returned true ∧
    (RedisOutputEndpoint.put st task (pre ++ [PushOutcome.ok])).1.countP
      (fun e => REvent.isDisconnect e) = pre.length ∧
    (RedisOutputEndpoint.put st task (pre ++ [PushOutcome.ok])).1.countP
      (fun e => REvent.isLogged e) = pre.length ∧
    (∀ c, (RedisOutputEndpoint.put st task (pre ++ [PushOutcome.ok])).2
        ≠ Outcome.raised c) ∧
    (∀ script b, (RedisOutputEndpoint.put st task script).2 = Outcome.returned b
        → b = true) := by
  obtain ⟨h2, hdc, hlg⟩ := pushLoop_transient_then_ok st.direction task.get_data pre h
  refine ⟨fun rest => rfl, ?_, ?_, ?_, ?_, ?_⟩
  · simp [RedisOutputEndpoint.put, h2, Outcome.mapv]
  · simpa [RedisOutputEndpoint.put] using hdc
  · simpa [RedisOutputEndpoint.put] using hlg
  · intro c
    simp only [RedisOutputEndpoint.put, h2, Outcome.mapv]
    exact fun hc => Outcome.noConfusion hc
  · intro script b hb
    simp only [RedisOutputEndpoint.put] at hb
    cases hic : (RedisOutputEndpoint.pushLoop st.direction task.get_data script).2 <;>
      simp [hic, Outcome.mapv] at hb
    exact hb

/-- C3 witness: two transient faults then success, direction `left`. -/
theorem redis_output_put_never_fails_witness :
    (∀ rest, RedisOutputEndpoint.put ⟨"q", "left"⟩ (Task.mk 7) (PushOutcome.ok :: rest)
        = ([pushEventFor "left" 7], Outcome.returned true)) ∧
    (RedisOutputEndpoint.put ⟨"q", "left"⟩ (Task.mk 7)
        ([PushOutcome.connError, PushOutcome.timeoutError] ++ [PushOutcome.ok])).2
      = Outcome.returned true ∧
    (RedisOutputEndpoint.put ⟨"q", "left"⟩ (Task.mk 7)
        ([PushOutcome.connError, PushOutcome.timeoutError] ++ [PushOutcome.ok])).1.countP
      (fun e => REvent.isDisconnect e)
      = [PushOutcome.connError, PushOutcome.timeoutError].length ∧
    (RedisOutputEndpoint.put ⟨"q", "left"⟩ (Task.mk 7)
        ([PushOutcome.connError, PushOutcome.timeoutError] ++ [PushOutcome.ok])).1.countP
      (fun e => REvent.isLogged e)
      = [PushOutcome.connError, PushOutcome.timeoutError].length ∧
    (∀ c, (RedisOutputEndpoint.put ⟨"q", "left"⟩ (Task.mk 7)
        ([PushOutcome.connError, PushOutcome.timeoutError] ++ [PushOutcome.ok])).2
        ≠ Outcome.raised c) ∧
    (∀ script b,
      (RedisOutputEndpoint.put ⟨"q", "left"⟩ (Task.mk 7) script).2 = Outcome.returned b
        → b = true) :=
  redis_output_put_never_fails ⟨"q", "left"⟩ (Task.mk 7)
    [PushOutcome.connError, PushOutcome.timeoutError] (by decide)

lemma pushEventFor_left {α : Type} (m : α) :
    pushEventFor "left" m = REvent.lpushCall m := by
  simp [pushEventFor]

lemma pushEventFor_right {α : Type} (m : α) :
    pushEventFor "right" m = REvent.rpushCall m := by
  simp [pushEventFor]

lemma pushLoop_left_no_rpush {α : Type} (msg : α) (script : List PushOutcome) :
    (RedisOutputEndpoint.pushLoop "left" msg script).1.countP
      (fun e => REvent.isRpush e) = 0 := by
  induction script with
  | nil => simp [RedisOutputEndpoint.pushLoop]
  | cons o rest ih =>
      cases o <;>
        simp [RedisOutputEndpoint.pushLoop, List.countP_cons, pushEventFor_left, ih]

lemma pushLoop_right_no_lpush {α : Type} (msg : α) (script : List PushOutcome) :
    (RedisOutputEndpoint.pushLoop "right" msg script).1.countP
      (fun e => REvent.isLpush e) = 0 := by
  induction script with
  | nil => simp [RedisOutputEndpoint.pushLoop]
  | cons o rest ih =>
      cases o <;>
        simp [RedisOutputEndpoint.pushLoop, List.countP_cons, pushEventFor_right, ih]

/-- C4: an output endpoint constructed with direction `"left"` stores that
direction and every push it attempts is a head-insert (`lpush`) of the task's
payload; with `"right"`, every push is a tail-insert (`rpush`); a successful
attempt records exactly the one corresponding push call. -/
theorem redis_output_direction_selects_push {α : Type} (q : String)
    (task : Task α) (script : List PushOutcome) :
    (RedisOutputEndpoint.init (Option.some q) "left").1 = Except.ok ⟨q, "left"⟩ ∧
    (RedisOutputEndpoint.init (Option.some q) "right").1 = Except.ok ⟨q, "right"⟩ ∧
    pushEventFor "left" task.get_data = REvent.lpushCall task.get_data ∧
    pushEventFor "right" task.get_data = REvent.rpushCall task.get_data ∧
    (RedisOutputEndpoint.put ⟨q, "left"⟩ task script).1.countP
      (fun e => REvent.isRpush e) = 0 ∧
    (RedisOutputEndpoint.put ⟨q, "right"⟩ task script).1.countP
      (fun e => REvent.isLpush e) = 0 ∧
    (RedisOutputEndpoint.put ⟨q, "left"⟩ task (PushOutcome.ok :: script)).1
      = [REvent.lpushCall task.get_data] ∧
    (RedisOutputEndpoint.put ⟨q, "right"⟩ task (PushOutcome.ok :: script)).1
      = [REvent.rpushCall task.get_data] := by
  refine ⟨?_, ?_, pushEventFor_left _, pushEventFor_right _, ?_, ?_, ?_, ?_⟩
  · simp [RedisOutputEndpoint.init]
  · simp [RedisOutputEndpoint.init]
  · simpa [RedisOutputEndpoint.put] using pushLoop_left_no_rpush task.get_data script
  · simpa [RedisOutputEndpoint.put] using pushLoop_right_no_lpush task.get_data script
  · simp [RedisOutputEndpoint.put, RedisOutputEndpoint.pushLoop, pushEventFor_left]
  · simp [RedisOutputEndpoint.put, RedisOutputEndpoint.pushLoop, pushEventFor_right]

lemma popLoop_handled_no_raise {α : Type} (s : List (PopOutcome α))
    (h : s.all (fun o => PopOutcome.isHandled o) = true) :
    ∀ code, (RedisInputEndpoint.popLoop s).2 ≠ Outcome.raised code := by
  induction s with
  | nil =>
      intro code hc
      simp [RedisInputEndpoint.popLoop] at hc
  | cons o rest ih =>
      simp only [List.all_cons, Bool.and_eq_true] at h
      obtain ⟨ho, hrest⟩ := h
      intro code hc
      cases o with
      | value p => simp [RedisInputEndpoint.popLoop] at hc
      | nilTimeout => exact ih hrest code (by simpa [RedisInputEndpoint.popLoop] using hc)
      | connError => exact ih hrest code (by simpa [RedisInputEndpoint.popLoop] using hc)
      | timeoutError => exact ih hrest code (by simpa [RedisInputEndpoint.popLoop] using hc)
      | otherExn c => simp [PopOutcome.isHandled] at ho

lemma pushLoop_handled_no_raise {α : Type} (d : String) (msg : α)
    (ps : List PushOutcome)
    (h : ps.all (fun o => PushOutcome.isHandled o) = true) :
    ∀ code, (RedisOutputEndpoint.pushLoop d msg ps).2 ≠ Outcome.raised code := by
  induction ps with
  | nil =>
      intro code hc
      simp [RedisOutputEndpoint.pushLoop] at hc
  | cons o rest ih =>
      simp only [List.all_cons, Bool.and_eq_true] at h
      obtain ⟨ho, hrest⟩ := h
      intro code hc
      cases o with
      | ok => simp [RedisOutputEndpoint.pushLoop] at hc
      | connError => exact ih hrest code (by simpa [RedisOutputEndpoint.pushLoop] using hc)
      | timeoutError => exact ih hrest code (by simpa [RedisOutputEndpoint.pushLoop] using hc)
      | otherExn c => simp [PushOutcome.isHandled] at ho

/-- C10: an exception other than `ConnectionError`/`TimeoutError` raised by the
pop or push propagates at once — the loop stops with `raised` after the single
attempt, with no disconnect and no log in the trace — while a script free of
such exceptions never makes the loop raise. -/
theorem broker_loop_absorbs_only_conn_and_timeout {α : Type} (c : Nat)
    (rest : List (PopOutcome α)) (d : String) (msg : α) (prest : List PushOutcome)
    (s : List (PopOutcome α)) (ps : List PushOutcome)
    (hs : s.all (fun o => PopOutcome.isHandled o) = true)
    (hps : ps.all (fun o => PushOutcome.isHandled o) = true) :
    RedisInputEndpoint.popLoop (PopOutcome.otherExn c :: rest)
      = ([REvent.brpopCall], Outcome.raised c) ∧
    RedisOutputEndpoint.pushLoop d msg (PushOutcome.otherExn c :: prest)
      = ([pushEventFor d msg], Outcome.raised c) ∧
    (∀ code, (RedisInputEndpoint.popLoop s).2 ≠ Outcome.raised code) ∧
    (∀ code, (RedisOutputEndpoint.pushLoop d msg ps).2 ≠ Outcome.raised code) :=
  ⟨rfl, rfl, popLoop_handled_no_raise s hs, pushLoop_handled_no_raise d msg ps hps⟩

/-- C10 witness: a broker response error (code 3) raised on the first attempt,
and fault-only scripts that never raise. -/
theorem broker_loop_absorbs_only_conn_and_timeout_witness :
    RedisInputEndpoint.popLoop (PopOutcome.otherExn 3 :: [PopOutcome.value 1])
      = ([REvent.brpopCall], Outcome.raised 3) ∧
    RedisOutputEndpoint.pushLoop "left" 9 (PushOutcome.otherExn 3 :: [PushOutcome.ok])
      = ([pushEventFor "left" 9], Outcome.raised 3) ∧
    (∀ code, (RedisInputEndpoint.popLoop
        [PopOutcome.connError, PopOutcome.nilTimeout, PopOutcome.timeoutError,
          PopOutcome.value 1]).2 ≠ Outcome.raised code) ∧
    (∀ code, (RedisOutputEndpoint.pushLoop "left" 9
        [PushOutcome.connError, PushOutcome.timeoutError, PushOutcome.ok]).2
      ≠ Outcome.raised code) :=
  broker_loop_absorbs_only_conn_and_timeout 3 [PopOutcome.value 1] "left" 9
    [PushOutcome.ok]
    [PopOutcome.connError, PopOutcome.nilTimeout, PopOutcome.timeoutError,
      PopOutcome.value 1]
    [PushOutcome.connError, PushOutcome.timeoutError, PushOutcome.ok]
    (by decide) (by decide)

lemma foldl_lpush_acc {α : Type} (ts : List (Task α)) (acc : List α) :
    ts.foldl (fun l t => redisPushDir "left" l t.get_data) acc
      = (ts.map Task.get_data).reverse ++ acc := by
  induction ts generalizing acc with
  | nil => simp
  | cons t rest ih =>
      rw [List.foldl_cons, ih]
      simp [redisPushDir, redisLpush, List.append_assoc]

lemma redisPutAll_left {α : Type} (ts : List (Task α)) :
    redisPutAll "left" ts = (ts.map Task.get_data).reverse := by
  simpa using foldl_lpush_acc ts []

lemma foldl_rpush_acc {α : Type} (ts : List (Task α)) (acc : List α) :
    ts.foldl (fun l t => redisPushDir "right" l t.get_data) acc
      = acc ++ ts.map Task.get_data := by
  induction ts generalizing acc with
  | nil => simp
  | cons t rest ih =>
      rw [List.foldl_cons, ih]
      simp [redisPushDir, redisRpush]

lemma redisPutAll_right {α : Type} (ts : List (Task α)) :
    redisPutAll "right" ts = ts.map Task.get_data := by
  simpa using foldl_rpush_acc ts []

lemma redisGetAllFuel_reverse {α : Type} (n : Nat) (l : List α)
    (h : l.length ≤ n) : redisGetAllFuel n l = l.reverse := by
  induction n generalizing l with
  | zero =>
      have : l = [] := List.eq_nil_of_length_eq_zero (Nat.le_zero.mp h)
      subst this
      rfl
  | succ n ih =>
      rcases List.eq_nil_or_concat' l with rfl | ⟨L, b, rfl⟩
      · rfl
      · have hlen : L.length ≤ n := by
          simp at h
          omega
        simp [redisGetAllFuel, redisStateGet, redisBrpop, Task.get_data,
          ih L hlen]

lemma memPutAll_map {α : Type} (ts : List (Task α)) :
    memPutAll ts = ts.map Task.get_data := by
  have acc : ∀ (ts : List (Task α)) (a : List α),
      ts.foldl (fun q t => (QueueOutputEndpoint.put q t).1) a
        = a ++ ts.map Task.get_data := by
    intro ts
    induction ts with
    | nil => simp
    | cons t rest ih =>
        intro a
        rw [List.foldl_cons, ih]
        simp [QueueOutputEndpoint.put, asyncioQueuePut]
  simpa using acc ts []

lemma memGetAllFuel_id {α : Type} (n : Nat) (q : List α) (h : q.length ≤ n) :
    memGetAllFuel n q = q := by
  induction n generalizing q with
  | zero =>
      have : q = [] := List.eq_nil_of_length_eq_zero (Nat.le_zero.mp h)
      subst this
      rfl
  | succ n ih =>
      cases q with
      | nil => rfl
      | cons x rest =>
          simp only [List.length_cons, Nat.succ_le_succ_iff] at h
          simp [memGetAllFuel, QueueInputEndpoint.get, asyncioQueueGet,
            Task.get_data, ih rest h]

/-- C5 counterexample: with direction `"right"`, pushing payloads 0 then 1
leaves the broker list `[0, 1]` and the two subsequent gets (tail pops) return
`[1, 0]` — not the push order `[0, 1]` the claim asserts for either
direction. -/
theorem broker_right_direction_not_fifo :
    redisPutAll "right" [Task.mk 0, Task.mk 1] = [0, 1] ∧
    redisGetAllFuel 2 (redisPutAll "right" [Task.mk 0, Task.mk 1]) = [1, 0] ∧
    redisGetAllFuel 2 (redisPutAll "right" [Task.mk 0, Task.mk 1])
      ≠ [Task.mk (0 : Nat), Task.mk 1].map Task.get_data := by
  decide

/-- C5 (amended): with the default direction `"left"` the broker list endpoints
are FIFO — gets return payloads in push order — and the memory queue endpoints
are strictly FIFO; with direction `"right"` the gets return the payloads in
reverse push order. -/
theorem broker_left_and_memory_queue_fifo {α : Type} (ts : List (Task α)) :
    redisGetAllFuel (redisPutAll "left" ts).length (redisPutAll "left" ts)
      = ts.map Task.get_data ∧
    memGetAllFuel (memPutAll ts).length (memPutAll ts) = ts.map Task.get_data ∧
    redisGetAllFuel (redisPutAll "right" ts).length (redisPutAll "right" ts)
      = (ts.map Task.get_data).reverse := by
  refine ⟨?_, ?_, ?_⟩
  · rw [redisGetAllFuel_reverse _ _ (Nat.le_refl _), redisPutAll_left,
      List.reverse_reverse]
  · rw [memGetAllFuel_id _ _ (Nat.le_refl _), memPutAll_map]
  · rw [redisGetAllFuel_reverse _ _ (Nat.le_refl _), redisPutAll_right]

/-- C6: round-trip identity — a task put through an output endpoint and got
back through the paired input endpoint on the same queue (memory queue, or
broker list in either direction, state or trace model) yields a `Task`
carrying the original payload. -/
theorem endpoint_roundtrip_identity {α : Type} (t : Task α) (d : String) :
    QueueInputEndpoint.get (QueueOutputEndpoint.put [] t).1
      = Option.some (Task.mk t.get_data, []) ∧
    redisStateGet (redisPushDir d [] t.get_data)
      = Option.some (Task.mk t.get_data, []) ∧
    (RedisInputEndpoint.get [PopOutcome.value t.get_data]).2
      = Outcome.returned (Task.mk t.get_data) ∧
    (Task.mk t.get_data).get_data = t.get_data := by
  refine ⟨?_, ?_, rfl, rfl⟩
  · simp [QueueInputEndpoint.get, QueueOutputEndpoint.put, asyncioQueuePut,
      asyncioQueueGet]
  · unfold redisPushDir
    split <;> simp [redisLpush, redisRpush, redisStateGet, redisBrpop]

/-- C7: constructing any endpoint with a `None` queue name / handle raises
`ValueError` synchronously, and for the broker endpoints before the connection
layer is touched (no `backendInit` event is recorded). -/
theorem null_queue_ctor_invalid_argument {α : Type} :
    QueueInputEndpoint.init (PyQueueArg.none : PyQueueArg α)
      = Except.error (PyError.valueError "queue must be not None") ∧
    QueueOutputEndpoint.init (PyQueueArg.none : PyQueueArg α)
      = Except.error (PyError.valueError "queue must be not None") ∧
    RedisInputEndpoint.init Option.none
      = (Except.error (PyError.valueError "queue_name must be not None"), []) ∧
    ∀ d, RedisOutputEndpoint.init Option.none d
      = (Except.error (PyError.valueError "queue_name must be not None"), []) :=
  ⟨rfl, rfl, rfl, fun _ => rfl⟩

/-- C8: a direction other than `"left"`/`"right"` makes the broker output
constructor raise `ValueError("invalid direction")` (with no backend access),
and the default direction is `"left"`: construction without a direction
argument succeeds and stores `"left"`. -/
theorem invalid_direction_ctor (q d : String) (h1 : d ≠ "left")
    (h2 : d ≠ "right") :
    RedisOutputEndpoint.init (Option.some q) d
      = (Except.error (PyError.valueError "invalid direction"), []) ∧
    RedisOutputEndpoint.defaultDirection = "left" ∧
    RedisOutputEndpoint.initDefault (Option.some q)
      = (Except.ok ⟨q, "left"⟩, [CtorEvent.backendInit]) := by
  refine ⟨?_, rfl, ?_⟩
  · simp [RedisOutputEndpoint.init, h1, h2]
  · simp [RedisOutputEndpoint.initDefault, RedisOutputEndpoint.defaultDirection,
      RedisOutputEndpoint.init]

/-- C8 witness: direction `"up"` on queue `"q"`. -/
theorem invalid_direction_ctor_witness :
    RedisOutputEndpoint.init (Option.some "q") "up"
      = (Except.error (PyError.valueError "invalid direction"), []) ∧
    RedisOutputEndpoint.defaultDirection = "left" ∧
    RedisOutputEndpoint.initDefault (Option.some "q")
      = (Except.ok ⟨"q", "left"⟩, [CtorEvent.backendInit]) :=
  invalid_direction_ctor "q" "up" (by decide) (by decide)

/-- C9: a non-`None` handle that is not an `asyncio.Queue` fails both memory
endpoint constructors with an `AssertionError` — a failure distinct from the
`ValueError` of the `None` case — while an `asyncio.Queue` is accepted. -/
theorem nonqueue_handle_assertion_failure {α : Type} (tag : String)
    (q : List α) :
    QueueInputEndpoint.init (PyQueueArg.other tag : PyQueueArg α)
      = Except.error
          (PyError.assertionError "queue must be an isinstance of asyncio.Queue") ∧
    QueueOutputEndpoint.init (PyQueueArg.other tag : PyQueueArg α)
      = Except.error
          (PyError.assertionError "queue must be an isinstance of asyncio.Queue") ∧
    QueueInputEndpoint.init (PyQueueArg.asyncioQueue q) = Except.ok q ∧
    QueueOutputEndpoint.init (PyQueueArg.asyncioQueue q) = Except.ok q ∧
    ∀ m m2 : String, PyError.assertionError m ≠ PyError.valueError m2 :=
  ⟨rfl, rfl, rfl, rfl, fun _ _ h => PyError.noConfusion h⟩

end Pipeflow
